import Mathlib

/-
Verification of the SuperApp micro-application WebView bridge
(`MicroAppViewer` and its handlers): a shallow embedding of the
authentication-token broker, the inbound message dispatch, the capability
handlers, the namespaced local-storage gateway, and the load/error/retry
lifecycle flags, together with theorems about the specified properties.
-/

/-- JS primitive values appearing in bridge payloads. -/
inductive JsPrim where
  | undef
  | jsNull
  | str (s : String)
  | bool (b : Bool)
deriving DecidableEq

/-- A JS argument passed to a nativebridge callback: a primitive or a flat
object literal. -/
inductive JsArg where
  | prim (p : JsPrim)
  | obj (fields : List (String × JsPrim))
deriving DecidableEq

/-- A boundary-crossing script built by `sendResponseToWeb` (lines 203-210):
when evaluated in the content surface it invokes
`window.nativebridge.<method>(payload)` if and only if that callback exists. -/
structure Script where
  method : String
  payload : JsArg
deriving DecidableEq

/-- `sendResponseToWeb` packages a callback name and payload into a script
injected into the WebView. -/
def sendResponseToWeb (method : String) (payload : JsArg) : Script :=
  { method := method, payload := payload }

/-- The content surface execution context: whether `window.nativebridge`
exists and which callbacks are defined on it. -/
structure WebContext where
  bridgeDefined : Bool
  defines : String → Bool

/-- An actual callback invocation inside the content surface. -/
structure Invocation where
  method : String
  payload : JsArg
deriving DecidableEq

/-- Evaluating an injected script inside the content surface: the generated
code guards the call with `window.nativebridge && window.nativebridge.method`,
so a missing callback is a silent no-op. -/
def evalScript (ctx : WebContext) (sc : Script) : Option Invocation :=
  if ctx.bridgeDefined && ctx.defines sc.method then
    some { method := sc.method, payload := sc.payload }
  else
    none

/-- Native side effects performed by handlers (dialogs shown to the user). -/
inductive Effect where
  | alertShown (title message : Option String) (buttonText : String)
  | confirmShown (title message : Option String) (cancelText confirmText : String)
deriving DecidableEq

/-- Fields of the inbound `message.data` object; every field may be absent
(JS `undefined`). `fileData` embeds the `data` property of `download_file`. -/
structure MsgData where
  key : Option String
  value : Option String
  title : Option String
  message : Option String
  buttonText : Option String
  cancelButtonText : Option String
  confirmButtonText : Option String
  fileName : Option String
  fileData : Option String
deriving DecidableEq

/-- An inbound envelope as seen by `handleMessage`: either a raw string that
is not valid JSON (`JSON.parse` throws) or a decoded object whose `topic`
field may be absent. -/
inductive Inbound where
  | invalid
  | msg (topic : Option String) (data : Option MsgData)
deriving DecidableEq

/-- Modelled from the spec: the `TOPIC` constants are imported from
`utils/bridge`, which is not among the provided sources; the spec (§6) names
the recognized topic for token requests `TOKEN`. -/
def TOPIC_TOKEN : String := "TOKEN"

/-- Modelled from the spec: the QR-scan request topic named in §6. -/
def TOPIC_QR_REQUEST : String := "QR_REQUEST"

/-- Modelled from the spec: the local-storage save topic named in §6. -/
def TOPIC_SAVE_LOCAL_DATA : String := "SAVE_LOCAL_DATA"

/-- Modelled from the spec: the local-storage read topic named in §6. -/
def TOPIC_GET_LOCAL_DATA : String := "GET_LOCAL_DATA"

/-- Modelled from the spec: the fire-and-forget alert topic named in §6. -/
def TOPIC_ALERT : String := "ALERT"

/-- Modelled from the spec: the confirmation-dialog topic named in §6. -/
def TOPIC_CONFIRM_ALERT : String := "CONFIRM_ALERT"

/-- Prefix test on character lists (Boolean, executable). -/
def isPrefixChars : List Char → List Char → Bool
  | [], _ => true
  | _ :: _, [] => false
  | a :: as, b :: bs => a == b && isPrefixChars as bs

/-- Substring test on character lists, mirroring JS `String.includes`. -/
def containsSub : List Char → List Char → Bool
  | [], pat => pat.isEmpty
  | l@(_ :: t), pat => isPrefixChars pat l || containsSub t pat

/-- JS `appId.includes(pat)`. -/
def strIncludes (s pat : String) : Bool :=
  containsSub s.data pat.data

/-- Per-session capability flags. -/
structure AppConfig where
  isDeveloper : Bool
  isTotp : Bool
  requiresAuth : Bool
  allowsFileAccess : Bool
deriving DecidableEq

/-- The app configuration derived from the appId route parameter
(lines 78-83): flags are substring tests on the application identity. -/
def appConfigOf (appId : String) : AppConfig :=
  { isDeveloper := strIncludes appId "developer"
    isTotp := strIncludes appId "totp"
    requiresAuth := !strIncludes appId "public"
    allowsFileAccess := strIncludes appId "file" }

/-- AsyncStorage modelled as a total map from storage keys to stored values. -/
def Store : Type := String → Option String

/-- `AsyncStorage.getItem` (absent keys read as JS `null`). -/
def getItem (st : Store) (k : String) : Option String := st k

/-- `AsyncStorage.setItem`. -/
def setItem (st : Store) (k v : String) : Store :=
  fun k2 => if k2 = k then some v else st k2

/-- JS template-literal interpolation of a possibly-undefined value. -/
def jsStr : Option String → String
  | some s => s
  | none => "undefined"

/-- The namespaced storage key `microapp_${appId}_${key}` used by
`handleSaveLocalData` and `handleGetLocalData` (lines 251 and 264). -/
def nsKey (appId key : String) : String :=
  "microapp_" ++ appId ++ "_" ++ key

/-- Component state relevant to the bridge: the held auth token, the queue of
pending token-request continuations (identified by arrival index; each stored
continuation is `sendTokenToWebView` itself, line 315), the scanner-overlay
flag and the AsyncStorage contents. -/
structure AppState where
  authToken : Option String
  pendingTokenRequests : List Nat
  nextRequestId : Nat
  scannerVisible : Bool
  storage : Store

/-- The result of one handler step: the next component state, the scripts
injected into the WebView, and the native dialog effects performed. -/
structure StepOut where
  state : AppState
  scripts : List Script
  effects : List Effect

/-- The result of `sendTokenToWebView`: which queued continuations were
resolved (with which token), the injected scripts and the remaining queue. -/
structure TokenSend where
  resolutions : List (Nat × String)
  scripts : List Script
  queue : List Nat

/-- The drain loop of `sendTokenToWebView` (lines 194-197): continuations are
shifted off the front of the queue and each is called with the token. Every
stored continuation is `sendTokenToWebView` itself, so calling it emits a
further `resolveToken` script and recursively drains the rest of the queue. -/
def drainTokenQueue (token : String) : List Nat → List (Nat × String) × List Script
  | [] => ([], [])
  | id :: rest =>
    let r := drainTokenQueue token rest
    ((id, token) :: r.1,
     sendResponseToWeb "resolveToken" (JsArg.prim (JsPrim.str token)) :: r.2)

/-- `sendTokenToWebView` (lines 189-198): a falsy token is ignored; otherwise
a `resolveToken` script is injected and every pending continuation is resolved
with the token, emptying the queue. -/
def sendTokenToWebView (token : String) (queue : List Nat) : TokenSend :=
  if token = "" then
    { resolutions := [], scripts := [], queue := queue }
  else
    let d := drainTokenQueue token queue
    { resolutions := d.1
      scripts := sendResponseToWeb "resolveToken" (JsArg.prim (JsPrim.str token)) :: d.2
      queue := [] }

/-- The success path of `fetchAuthToken` (lines 173-179): a mock token derived
from the current time is stored via `setAuthToken` and pushed to the WebView
via `sendTokenToWebView`. -/
def fetchAuthTokenSuccess (now : Nat) (s : AppState) : StepOut :=
  let token := "auth_token_" ++ toString now
  let d := sendTokenToWebView token s.pendingTokenRequests
  { state := { s with authToken := some token, pendingTokenRequests := d.queue }
    scripts := d.scripts
    effects := [] }

/-- The catch path of `fetchAuthToken` (lines 180-183): the error is logged
and `handleAlert` shows an authentication-error dialog; the pending queue and
the held token are left untouched. -/
def fetchAuthTokenFailure (s : AppState) : StepOut :=
  { state := s
    scripts := []
    effects := [Effect.alertShown (some "Authentication Error")
      (some "Failed to authenticate user. Please try again.") "OK"] }

/-- `handleAlert` (lines 215-217): shows a native alert; the button text
defaults to "OK". -/
def handleAlert (title message buttonText : Option String) : Effect :=
  Effect.alertShown title message (buttonText.getD "OK")

/-- The outcome the user chooses in a confirmation dialog. -/
inductive ConfirmChoice where
  | confirm
  | cancel
deriving DecidableEq

/-- `handleConfirmAlert` (lines 222-244): shows a two-button dialog whose
button texts default to "Cancel"/"Confirm"; the pressed button sends exactly
one `resolveConfirmAlert` response carrying "cancel" or "confirm". -/
def handleConfirmAlert (title message cancelText confirmText : Option String)
    (choice : ConfirmChoice) : Effect × Script :=
  (Effect.confirmShown title message (cancelText.getD "Cancel") (confirmText.getD "Confirm"),
   match choice with
   | ConfirmChoice.cancel => sendResponseToWeb "resolveConfirmAlert" (JsArg.prim (JsPrim.str "cancel"))
   | ConfirmChoice.confirm => sendResponseToWeb "resolveConfirmAlert" (JsArg.prim (JsPrim.str "confirm")))

/-- `handleSaveLocalData` (lines 249-257): writes the value under the
namespaced key and resolves; `AsyncStorage.setItem` rejects a non-string
(undefined) value, which the catch branch converts into a reject response. -/
def handleSaveLocalData (appId : String) (key value : Option String) (s : AppState) : StepOut :=
  match value with
  | some v =>
    { state := { s with storage := setItem s.storage (nsKey appId (jsStr key)) v }
      scripts := [sendResponseToWeb "resolveSaveLocalData" (JsArg.prim JsPrim.undef)]
      effects := [] }
  | none =>
    { state := s
      scripts := [sendResponseToWeb "rejectSaveLocalData" (JsArg.prim (JsPrim.str "Storage error"))]
      effects := [] }

/-- `handleGetLocalData` (lines 262-270): reads the namespaced key and
resolves with `{ value }` (JS `null` when absent); the store is unchanged. -/
def handleGetLocalData (appId : String) (key : Option String) (s : AppState) : StepOut :=
  { state := s
    scripts := [sendResponseToWeb "resolveGetLocalData"
      (JsArg.obj [("value",
        match getItem s.storage (nsKey appId (jsStr key)) with
        | some v => JsPrim.str v
        | none => JsPrim.jsNull)])]
    effects := [] }

/-- `handleFileDownload` (lines 275-288): when the session's file-access flag
is set, shows the mock download alert and resolves; otherwise the thrown
permission error is caught and converted into a `rejectDownload` response,
with no native action performed. -/
def handleFileDownload (appId : String) (fileName : Option String) (s : AppState) : StepOut :=
  if (appConfigOf appId).allowsFileAccess then
    { state := s
      scripts := [sendResponseToWeb "resolveDownload"
        (JsArg.obj [("fileName",
          match fileName with
          | some fn => JsPrim.str fn
          | none => JsPrim.undef), ("success", JsPrim.bool true)])]
      effects := [Effect.alertShown (some "Download")
        (some ("File \"" ++ jsStr fileName ++ "\" downloaded successfully.")) "OK"] }
  else
    { state := s
      scripts := [sendResponseToWeb "rejectDownload"
        (JsArg.prim (JsPrim.str "File access not permitted for this app"))]
      effects := [] }

/-- `handleQrScanResult` (lines 293-296): a completed scan resolves with the
QR data and closes the scanner overlay. -/
def handleQrScanResult (qrData : String) (s : AppState) : StepOut :=
  { state := { s with scannerVisible := false }
    scripts := [sendResponseToWeb "resolveQrCode" (JsArg.prim (JsPrim.str qrData))]
    effects := [] }

/-- Reading a property of `message.data`: in JS, accessing a property of
`undefined` throws a TypeError, which escapes the case arm and is caught by
the surrounding try/catch of `handleMessage`. -/
def dataField (data : Option MsgData) (f : MsgData → Option String) : Except String (Option String) :=
  match data with
  | none => Except.error "TypeError"
  | some d => Except.ok (f d)

/-- The switch of `handleMessage` (lines 310-359), one arm per topic; the
default arm logs a warning and sends nothing. Topic comparison mirrors the
JS switch's strict string equality chain. -/
def dispatchTopic (appId : String) (choice : ConfirmChoice) (s : AppState)
    (topic : String) (data : Option MsgData) : Except String StepOut :=
  if topic = TOPIC_TOKEN then
    Except.ok (match s.authToken with
      | some t =>
        let d := sendTokenToWebView t s.pendingTokenRequests
        { state := { s with pendingTokenRequests := d.queue }
          scripts := d.scripts
          effects := [] }
      | none =>
        { state := { s with
            pendingTokenRequests := s.pendingTokenRequests ++ [s.nextRequestId]
            nextRequestId := s.nextRequestId + 1 }
          scripts := []
          effects := [] })
  else if topic = TOPIC_QR_REQUEST then
    Except.ok { state := { s with scannerVisible := true }, scripts := [], effects := [] }
  else if topic = TOPIC_SAVE_LOCAL_DATA then do
    let k ← dataField data (fun d => d.key)
    let v ← dataField data (fun d => d.value)
    Except.ok (handleSaveLocalData appId k v s)
  else if topic = TOPIC_GET_LOCAL_DATA then do
    let k ← dataField data (fun d => d.key)
    Except.ok (handleGetLocalData appId k s)
  else if topic = TOPIC_ALERT then do
    let t ← dataField data (fun d => d.title)
    let m ← dataField data (fun d => d.message)
    let b ← dataField data (fun d => d.buttonText)
    Except.ok { state := s, scripts := [], effects := [handleAlert t m b] }
  else if topic = TOPIC_CONFIRM_ALERT then do
    let t ← dataField data (fun d => d.title)
    let m ← dataField data (fun d => d.message)
    let c ← dataField data (fun d => d.cancelButtonText)
    let cf ← dataField data (fun d => d.confirmButtonText)
    let r := handleConfirmAlert t m c cf choice
    Except.ok { state := s, scripts := [r.2], effects := [r.1] }
  else if topic = "download_file" then do
    let fn ← dataField data (fun d => d.fileName)
    let _ ← dataField data (fun d => d.fileData)
    Except.ok (handleFileDownload appId fn s)
  else if topic = "upload_file" then
    Except.ok
      { state := s,
        scripts := [sendResponseToWeb "resolveUpload" (JsArg.obj [("success", JsPrim.bool true)])],
        effects := [] }
  else
    Except.ok { state := s, scripts := [], effects := [] }

/-- `handleMessage` (lines 301-363): parse failures and a missing/falsy topic
return early with no output; any exception thrown by a case arm is caught by
the surrounding try/catch, logged, and produces no output. -/
def handleMessage (appId : String) (choice : ConfirmChoice) (s : AppState)
    (inb : Inbound) : StepOut :=
  match inb with
  | Inbound.invalid => { state := s, scripts := [], effects := [] }
  | Inbound.msg none _ => { state := s, scripts := [], effects := [] }
  | Inbound.msg (some t) data =>
    if t = "" then { state := s, scripts := [], effects := [] }
    else
      match dispatchTopic appId choice s t data with
      | Except.ok r => r
      | Except.error _ => { state := s, scripts := [], effects := [] }

/-- Sequential processing of a list of inbound envelopes, accumulating the
injected scripts. -/
def handleAll (appId : String) (choice : ConfirmChoice) (s : AppState) :
    List Inbound → AppState × List Script
  | [] => (s, [])
  | m :: ms =>
    let r := handleMessage appId choice s m
    let rest := handleAll appId choice r.state ms
    (rest.1, r.scripts ++ rest.2)

/-- The Boolean test `recognizedTopic t = true` iff some switch arm other than
the default handles topic `t`. -/
def recognizedTopic (t : String) : Bool :=
  t = TOPIC_TOKEN || t = TOPIC_QR_REQUEST || t = TOPIC_SAVE_LOCAL_DATA ||
  t = TOPIC_GET_LOCAL_DATA || t = TOPIC_ALERT || t = TOPIC_CONFIRM_ALERT ||
  t = "download_file" || t = "upload_file"

/-- The lifecycle flags of the content surface: `hasError` and `isLoading`
(lines 71-72). -/
structure LifeState where
  hasError : Bool
  isLoading : Bool
deriving DecidableEq

/-- Lifecycle events: WebView load start/end, load error
(`handleWebViewError`, lines 368-373) and retry (`reloadWebView`,
lines 378-382). -/
inductive LifeEvent where
  | loadStart
  | loadEnd
  | loadError
  | retry
deriving DecidableEq

/-- The flag updates performed by each lifecycle event. -/
def lifeStep : LifeEvent → LifeState → LifeState
  | LifeEvent.loadStart, s => { s with isLoading := true }
  | LifeEvent.loadEnd, s => { s with isLoading := false }
  | LifeEvent.loadError, _ => { hasError := true, isLoading := false }
  | LifeEvent.retry, _ => { hasError := false, isLoading := true }

/-- The initial lifecycle state (lines 71-72): loading, no error. -/
def initialLife : LifeState := { hasError := false, isLoading := true }

/-- Events fired by the mounted WebView itself (everything except retry). -/
def isWebViewEvent : LifeEvent → Bool
  | LifeEvent.retry => false
  | _ => true

/-- Reachable lifecycle states: WebView callbacks can only fire while the
WebView is mounted, i.e. while `hasError` is false (line 611 renders the
error screen instead of the WebView when `hasError` holds); the retry action
(`reloadWebView`) can fire at any time. -/
inductive LifeReachable : LifeState → Prop where
  | init : LifeReachable initialLife
  | web (e : LifeEvent) (s : LifeState) : LifeReachable s → s.hasError = false →
      isWebViewEvent e = true → LifeReachable (lifeStep e s)
  | retryStep (s : LifeState) : LifeReachable s → LifeReachable (lifeStep LifeEvent.retry s)

/-- The Ready lifecycle state: loaded without error. -/
def LifeState.ready (s : LifeState) : Prop :=
  s.hasError = false ∧ s.isLoading = false

/-- Message delivery at component level: the WebView with its `onMessage`
handler is mounted only while `hasError` is false (line 611); while mounted,
`handleMessage` runs unconditionally — there is no lifecycle gate and no
buffer in the component. -/
def componentHandle (life : LifeState) (appId : String) (choice : ConfirmChoice)
    (s : AppState) (inb : Inbound) : Option StepOut :=
  if life.hasError then none else some (handleMessage appId choice s inb)

/-- The empty AsyncStorage. -/
def emptyStore : Store := fun _ => none

/-- A fresh component state: no token, empty queue, scanner closed, empty
storage. -/
def sampleState : AppState :=
  { authToken := none
    pendingTokenRequests := []
    nextRequestId := 0
    scannerVisible := false
    storage := emptyStore }

/-- A component state with one continuation waiting for a token. -/
def waitingState : AppState :=
  { authToken := none
    pendingTokenRequests := [0]
    nextRequestId := 1
    scannerVisible := false
    storage := emptyStore }

/-- A `message.data` object with every field absent. -/
def emptyData : MsgData :=
  { key := none, value := none, title := none, message := none, buttonText := none
    cancelButtonText := none, confirmButtonText := none, fileName := none, fileData := none }

/-- The drain loop resolves exactly the queued continuations, in queue order,
each with the supplied token. -/
theorem drainTokenQueue_fst (t : String) (q : List Nat) :
    (drainTokenQueue t q).1 = q.map (fun i => (i, t)) := by
  induction q with
  | nil => rfl
  | cons h rest ih => simp [drainTokenQueue, ih]

/-- Namespaced storage keys determine the application identity when the
logical key is fixed. -/
theorem nsKey_inj_appId {A B k : String} (h : nsKey A k = nsKey B k) : A = B := by
  unfold nsKey at h
  have hd := congrArg String.data h
  simp only [String.data_append] at hd
  have h2 : A.data = B.data := by simpa [List.append_assoc] using hd
  cases A
  cases B
  simp_all

/-- Mock tokens are never the falsy empty string. -/
theorem auth_prefixed_ne_empty (x : String) : "auth_token_" ++ x ≠ "" := by
  intro h
  have hl := congrArg String.length h
  rw [String.length_append] at hl
  have h11 : ("auth_token_" : String).length = 11 := rfl
  have h0 : ("" : String).length = 0 := rfl
  omega

/-- C1: a TOKEN request handled while no auth token is held appends its
continuation at the tail of the pending queue, and supplying a token via
`sendTokenToWebView` resolves every queued continuation with that same token
value in arrival (FIFO) order and empties the queue. -/
theorem token_requests_fifo_broadcast :
    (∀ appId choice s data, s.authToken = none →
      (handleMessage appId choice s (Inbound.msg (some TOPIC_TOKEN) data)).state.pendingTokenRequests
        = s.pendingTokenRequests ++ [s.nextRequestId])
  ∧ (∀ token queue, token ≠ "" →
      (sendTokenToWebView token queue).resolutions = queue.map (fun i => (i, token))
      ∧ (sendTokenToWebView token queue).queue = []) := by
  constructor
  · intro appId choice s data h
    have hne : TOPIC_TOKEN ≠ "" := by decide
    simp [handleMessage, dispatchTopic, hne, h]
  · intro token queue h
    constructor
    · simp [sendTokenToWebView, h, drainTokenQueue_fst]
    · simp [sendTokenToWebView, h]

/-- Witness for C1 at concrete inputs. -/
theorem token_requests_fifo_broadcast_witness :
    (handleMessage "app1" ConfirmChoice.cancel sampleState
        (Inbound.msg (some TOPIC_TOKEN) none)).state.pendingTokenRequests
      = sampleState.pendingTokenRequests ++ [sampleState.nextRequestId]
    ∧ (sendTokenToWebView "tok" [0, 1]).resolutions = [0, 1].map (fun i => (i, "tok"))
    ∧ (sendTokenToWebView "tok" [0, 1]).queue = [] :=
  ⟨token_requests_fifo_broadcast.1 "app1" ConfirmChoice.cancel sampleState none rfl,
   (token_requests_fifo_broadcast.2 "tok" [0, 1] (by decide)).1,
   (token_requests_fifo_broadcast.2 "tok" [0, 1] (by decide)).2⟩

/-- C2 counterexample: with one continuation pending, a failed credential
fetch leaves the queue non-empty and injects no script at all — in
particular no continuation is rejected. -/
theorem credential_failure_leaves_queue :
    (fetchAuthTokenFailure waitingState).state.pendingTokenRequests ≠ []
    ∧ (fetchAuthTokenFailure waitingState).scripts = [] :=
  ⟨by decide, rfl⟩

/-- C2 amended: on credential-fetch failure the code only shows an
"Authentication Error" alert; the pending queue and the held token are left
unchanged (no continuation is rejected or resolved), so the broker stays in
the no-credential-held state and a later successful supply still resolves
every queued continuation in FIFO order with the same token. -/
theorem credential_failure_alert_only :
    (∀ s, fetchAuthTokenFailure s
        = { state := s, scripts := [],
            effects := [Effect.alertShown (some "Authentication Error")
              (some "Failed to authenticate user. Please try again.") "OK"] })
  ∧ (∀ s token, token ≠ "" →
      (sendTokenToWebView token (fetchAuthTokenFailure s).state.pendingTokenRequests).resolutions
        = s.pendingTokenRequests.map (fun i => (i, token))) := by
  constructor
  · intro s
    rfl
  · intro s token h
    simp [fetchAuthTokenFailure, sendTokenToWebView, h, drainTokenQueue_fst]

/-- Witness for C2's amended theorem at concrete inputs. -/
theorem credential_failure_alert_only_witness :
    (sendTokenToWebView "tok" (fetchAuthTokenFailure waitingState).state.pendingTokenRequests).resolutions
      = waitingState.pendingTokenRequests.map (fun i => (i, "tok")) :=
  credential_failure_alert_only.2 waitingState "tok" (by decide)

/-- C3: an inbound envelope that is not valid JSON, or whose decoded object
lacks a (truthy) topic, or whose topic matches no switch arm, produces no
outbound script, no native effect and no state change, and processing of
subsequent messages is exactly as if it had never arrived. -/
theorem malformed_inbound_no_output :
    ∀ appId choice s inb,
      (inb = Inbound.invalid
        ∨ (∃ d, inb = Inbound.msg none d)
        ∨ (∃ t d, inb = Inbound.msg (some t) d ∧ (t = "" ∨ recognizedTopic t = false))) →
      handleMessage appId choice s inb = { state := s, scripts := [], effects := [] }
      ∧ (∀ ms, handleAll appId choice s (inb :: ms) = handleAll appId choice s ms) := by
  intro appId choice s inb h
  have hmain : handleMessage appId choice s inb = { state := s, scripts := [], effects := [] } := by
    rcases h with rfl | ⟨d, rfl⟩ | ⟨t, d, rfl, ht⟩
    · rfl
    · rfl
    · rcases ht with rfl | ht
      · simp [handleMessage]
      · by_cases ht0 : t = ""
        · simp [handleMessage, ht0]
        · simp only [recognizedTopic, Bool.or_eq_false_iff, decide_eq_false_iff_not] at ht
          obtain ⟨⟨⟨⟨⟨⟨⟨h1, h2⟩, h3⟩, h4⟩, h5⟩, h6⟩, h7⟩, h8⟩ := ht
          simp [handleMessage, dispatchTopic, ht0, h1, h2, h3, h4, h5, h6, h7, h8]
  refine ⟨hmain, ?_⟩
  intro ms
  simp [handleAll, hmain]

/-- Witness for C3 at a concrete unknown-topic envelope. -/
theorem malformed_inbound_no_output_witness :
    handleMessage "app1" ConfirmChoice.cancel sampleState (Inbound.msg (some "bogus") none)
      = { state := sampleState, scripts := [], effects := [] }
    ∧ handleAll "app1" ConfirmChoice.cancel sampleState [Inbound.msg (some "bogus") none]
      = handleAll "app1" ConfirmChoice.cancel sampleState [] :=
  ⟨(malformed_inbound_no_output "app1" ConfirmChoice.cancel sampleState
      (Inbound.msg (some "bogus") none)
      (Or.inr (Or.inr ⟨"bogus", none, rfl, Or.inr (by decide)⟩))).1,
   (malformed_inbound_no_output "app1" ConfirmChoice.cancel sampleState
      (Inbound.msg (some "bogus") none)
      (Or.inr (Or.inr ⟨"bogus", none, rfl, Or.inr (by decide)⟩))).2 []⟩

/-- C4 counterexample: a SAVE_LOCAL_DATA request whose `data` object is
missing sends zero responses — the TypeError thrown by the field access is
swallowed by the dispatch-boundary catch and no rejection response is
produced, contradicting the one-response-per-request contract. -/
theorem save_missing_data_zero_responses :
    ((handleMessage "app1" ConfirmChoice.cancel sampleState
        (Inbound.msg (some TOPIC_SAVE_LOCAL_DATA) none)).scripts).length = 0 := by
  decide

/-- C4 amended: handlers perform no field validation; a request whose `data`
object is missing is caught at the dispatch boundary with zero responses and
no state change (no fault reaches the host shell). When the `data` object is
present, SAVE_LOCAL_DATA, GET_LOCAL_DATA, download_file and upload_file each
send exactly one resolve-or-reject response, CONFIRM_ALERT sends exactly one
response per user outcome, and a completed QR scan sends exactly one. -/
theorem handlers_one_response_when_wellformed :
    ∀ appId choice s d qr,
      ((handleMessage appId choice s (Inbound.msg (some TOPIC_SAVE_LOCAL_DATA) (some d))).scripts).length = 1
    ∧ ((handleMessage appId choice s (Inbound.msg (some TOPIC_GET_LOCAL_DATA) (some d))).scripts).length = 1
    ∧ ((handleMessage appId choice s (Inbound.msg (some "download_file") (some d))).scripts).length = 1
    ∧ ((handleMessage appId choice s (Inbound.msg (some "upload_file") (some d))).scripts).length = 1
    ∧ ((handleMessage appId choice s (Inbound.msg (some TOPIC_CONFIRM_ALERT) (some d))).scripts).length = 1
    ∧ (handleMessage appId choice s (Inbound.msg (some TOPIC_SAVE_LOCAL_DATA) none)).scripts = []
    ∧ (handleMessage appId choice s (Inbound.msg (some TOPIC_SAVE_LOCAL_DATA) none)).state = s
    ∧ ((handleQrScanResult qr s).scripts).length = 1 := by
  intro appId choice s d qr
  refine ⟨?_, ?_, ?_, ?_, ?_, ?_, ?_, ?_⟩
  · cases hv : d.value <;>
      simp [handleMessage, dispatchTopic, dataField, handleSaveLocalData, hv,
        TOPIC_TOKEN, TOPIC_QR_REQUEST, TOPIC_SAVE_LOCAL_DATA, TOPIC_GET_LOCAL_DATA,
        TOPIC_ALERT, TOPIC_CONFIRM_ALERT, Bind.bind, Except.bind]
  · simp [handleMessage, dispatchTopic, dataField, handleGetLocalData,
      TOPIC_TOKEN, TOPIC_QR_REQUEST, TOPIC_SAVE_LOCAL_DATA, TOPIC_GET_LOCAL_DATA,
      TOPIC_ALERT, TOPIC_CONFIRM_ALERT, Bind.bind, Except.bind]
  · cases hf : (appConfigOf appId).allowsFileAccess <;>
      simp [handleMessage, dispatchTopic, dataField, handleFileDownload, hf,
        TOPIC_TOKEN, TOPIC_QR_REQUEST, TOPIC_SAVE_LOCAL_DATA, TOPIC_GET_LOCAL_DATA,
        TOPIC_ALERT, TOPIC_CONFIRM_ALERT, Bind.bind, Except.bind]
  · simp [handleMessage, dispatchTopic,
      TOPIC_TOKEN, TOPIC_QR_REQUEST, TOPIC_SAVE_LOCAL_DATA, TOPIC_GET_LOCAL_DATA,
      TOPIC_ALERT, TOPIC_CONFIRM_ALERT, Bind.bind, Except.bind]
  · cases choice <;>
      simp [handleMessage, dispatchTopic, dataField, handleConfirmAlert,
        TOPIC_TOKEN, TOPIC_QR_REQUEST, TOPIC_SAVE_LOCAL_DATA, TOPIC_GET_LOCAL_DATA,
        TOPIC_ALERT, TOPIC_CONFIRM_ALERT, Bind.bind, Except.bind]
  · simp [handleMessage, dispatchTopic, dataField,
      TOPIC_TOKEN, TOPIC_QR_REQUEST, TOPIC_SAVE_LOCAL_DATA, TOPIC_GET_LOCAL_DATA,
      TOPIC_ALERT, TOPIC_CONFIRM_ALERT, Bind.bind, Except.bind]
  · simp [handleMessage, dispatchTopic, dataField,
      TOPIC_TOKEN, TOPIC_QR_REQUEST, TOPIC_SAVE_LOCAL_DATA, TOPIC_GET_LOCAL_DATA,
      TOPIC_ALERT, TOPIC_CONFIRM_ALERT, Bind.bind, Except.bind]
  · simp [handleQrScanResult]

/-- C5 counterexample: for an identity without file-access capability, an
upload_file request is answered with an unconditional `resolveUpload` success
response — not a permission-denied rejection — because the upload arm
performs no capability check. -/
theorem upload_without_capability_resolves :
    (appConfigOf "demo").allowsFileAccess = false
    ∧ (handleMessage "demo" ConfirmChoice.cancel sampleState
        (Inbound.msg (some "upload_file") (some emptyData))).scripts
      = [sendResponseToWeb "resolveUpload" (JsArg.obj [("success", JsPrim.bool true)])] :=
  ⟨by decide, by decide⟩

/-- C5 amended: download_file requested for an identity whose file-access
flag is unset sends exactly the permission-denied rejection, performs no
native side effect and leaves the state unchanged; upload_file, however,
performs no capability check and always resolves successfully. -/
theorem download_capability_enforced :
    ∀ appId choice s d, (appConfigOf appId).allowsFileAccess = false →
      (handleMessage appId choice s (Inbound.msg (some "download_file") (some d))).scripts
        = [sendResponseToWeb "rejectDownload"
            (JsArg.prim (JsPrim.str "File access not permitted for this app"))]
      ∧ (handleMessage appId choice s (Inbound.msg (some "download_file") (some d))).effects = []
      ∧ (handleMessage appId choice s (Inbound.msg (some "download_file") (some d))).state = s
      ∧ (handleMessage appId choice s (Inbound.msg (some "upload_file") (some d))).scripts
        = [sendResponseToWeb "resolveUpload" (JsArg.obj [("success", JsPrim.bool true)])] := by
  intro appId choice s d hf
  refine ⟨?_, ?_, ?_, ?_⟩ <;>
    simp [handleMessage, dispatchTopic, dataField, handleFileDownload, hf,
      TOPIC_TOKEN, TOPIC_QR_REQUEST, TOPIC_SAVE_LOCAL_DATA, TOPIC_GET_LOCAL_DATA,
      TOPIC_ALERT, TOPIC_CONFIRM_ALERT, Bind.bind, Except.bind]

/-- Witness for C5's amended theorem at a concrete identity without the
file-access flag. -/
theorem download_capability_enforced_witness :
    (handleMessage "demo" ConfirmChoice.cancel sampleState
        (Inbound.msg (some "download_file") (some emptyData))).scripts
      = [sendResponseToWeb "rejectDownload"
          (JsArg.prim (JsPrim.str "File access not permitted for this app"))]
    ∧ (handleMessage "demo" ConfirmChoice.cancel sampleState
        (Inbound.msg (some "download_file") (some emptyData))).effects = [] :=
  ⟨(download_capability_enforced "demo" ConfirmChoice.cancel sampleState emptyData (by decide)).1,
   (download_capability_enforced "demo" ConfirmChoice.cancel sampleState emptyData (by decide)).2.1⟩

/-- C6: the retry action always produces the Loading state (error flag
cleared together with setting the loading flag), never the Ready state, and
on every reachable lifecycle state the error and loading flags are never
resolved inconsistently (both set). -/
theorem lifecycle_retry_reenters_loading :
    (∀ s, lifeStep LifeEvent.retry s = { hasError := false, isLoading := true }
        ∧ ¬(lifeStep LifeEvent.retry s).ready)
  ∧ (∀ s, LifeReachable s → ¬(s.hasError = true ∧ s.isLoading = true)) := by
  constructor
  · intro s
    exact ⟨rfl, by simp [lifeStep, LifeState.ready]⟩
  · intro s h
    induction h with
    | init => simp [initialLife]
    | web e s hr herr hweb ih =>
      cases e <;> simp [lifeStep, herr]
    | retryStep s hr ih => simp [lifeStep]

/-- Witness for C6: the state after a load error followed by retry. -/
theorem lifecycle_retry_reenters_loading_witness :
    ¬((lifeStep LifeEvent.retry (lifeStep LifeEvent.loadError initialLife)).hasError = true
      ∧ (lifeStep LifeEvent.retry (lifeStep LifeEvent.loadError initialLife)).isLoading = true) :=
  lifecycle_retry_reenters_loading.2 _
    (LifeReachable.retryStep _ (LifeReachable.web LifeEvent.loadError initialLife
      LifeReachable.init rfl rfl))

/-- C7 counterexample: a GET_LOCAL_DATA message arriving while the lifecycle
is Loading (loading flag set, hence not Ready) is dispatched immediately and
answered — it is not buffered until Ready is entered. -/
theorem message_handled_while_loading :
    (LifeState.mk false true).isLoading = true
    ∧ ((componentHandle (LifeState.mk false true) "app1" ConfirmChoice.cancel sampleState
          (Inbound.msg (some TOPIC_GET_LOCAL_DATA) (some emptyData))).map StepOut.scripts)
        = some [sendResponseToWeb "resolveGetLocalData" (JsArg.obj [("value", JsPrim.jsNull)])] :=
  ⟨rfl, by decide⟩

/-- C7 amended: inbound dispatch is not gated on the lifecycle state: while
the content surface is mounted (no error flag) `handleMessage` runs
identically whether the loading flag is set or clear — there is no buffer and
no replay — and while Errored the surface is unmounted, so messages are not
delivered at all (dropped, not buffered). -/
theorem dispatch_ignores_loading_state :
    ∀ (b : Bool) appId choice s inb,
      componentHandle (LifeState.mk false b) appId choice s inb
        = some (handleMessage appId choice s inb)
      ∧ componentHandle (LifeState.mk true b) appId choice s inb = none := by
  intro b appId choice s inb
  exact ⟨rfl, rfl⟩

/-- C8 counterexample: the namespaces of distinct identities are not
disjoint. The identity "a" saving under logical key "b_c" writes the storage
key read by identity "a_b" under logical key "c", so the saved value is
observable from the other identity. -/
theorem storage_cross_identity_observable :
    ("a" : String) ≠ "a_b"
    ∧ (handleGetLocalData "a_b" (some "c")
        (handleSaveLocalData "a" (some "b_c") (some "v") sampleState).state).scripts
      = [sendResponseToWeb "resolveGetLocalData" (JsArg.obj [("value", JsPrim.str "v")])] :=
  ⟨by decide, by decide⟩

/-- C8 amended: for the same logical key, a save under identity A is not
observable via a get under a different identity B — the namespaced keys
differ whenever the identities differ — but the namespaces are not disjoint
in general: identities and keys containing the underscore separator can
collide across identities (see the counterexample). -/
theorem storage_same_key_isolation :
    ∀ A B k v s, A ≠ B →
      (handleGetLocalData B (some k) (handleSaveLocalData A (some k) (some v) s).state).scripts
        = (handleGetLocalData B (some k) s).scripts := by
  intro A B k v s hAB
  have hkey : ¬(nsKey B (jsStr (some k)) = nsKey A (jsStr (some k))) := by
    intro h
    exact hAB (nsKey_inj_appId h).symm
  simp [handleGetLocalData, handleSaveLocalData, getItem, setItem, hkey]

/-- Witness for C8's amended theorem at concrete distinct identities. -/
theorem storage_same_key_isolation_witness :
    (handleGetLocalData "b" (some "k")
        (handleSaveLocalData "a" (some "k") (some "v") sampleState).state).scripts
      = (handleGetLocalData "b" (some "k") sampleState).scripts :=
  storage_same_key_isolation "a" "b" "k" "v" sampleState (by decide)

/-- C9: a storage read leaves the component state (and hence the store)
unchanged, and a second read of the same key with no intervening save
produces the same response (same value or same absence). -/
theorem get_reads_idempotent :
    ∀ appId k s,
      (handleGetLocalData appId k s).state = s
      ∧ (handleGetLocalData appId k ((handleGetLocalData appId k s).state)).scripts
          = (handleGetLocalData appId k s).scripts :=
  fun _ _ _ => ⟨rfl, rfl⟩

/-- A content surface context defining no callbacks. -/
def offCtx : WebContext := { bridgeDefined := false, defines := fun _ => false }

/-- A content surface context defining every callback. -/
def onCtx : WebContext := { bridgeDefined := true, defines := fun _ => true }

/-- C10: a successful credential fetch pushes a `resolveToken` script even
with zero pending token requests (an unsolicited broadcast), and every
injected script is guarded by a callback-existence check: it invokes nothing
when the callback is undefined and invokes exactly the named callback when
defined. -/
theorem unsolicited_token_push_and_guarded_invoke :
    (∀ now s, s.pendingTokenRequests = [] →
      (fetchAuthTokenSuccess now s).scripts
        = [sendResponseToWeb "resolveToken"
            (JsArg.prim (JsPrim.str ("auth_token_" ++ toString now)))])
  ∧ (∀ ctx sc, (ctx.bridgeDefined && ctx.defines sc.method) = false →
      evalScript ctx sc = none)
  ∧ (∀ ctx sc, (ctx.bridgeDefined && ctx.defines sc.method) = true →
      evalScript ctx sc = some { method := sc.method, payload := sc.payload }) := by
  refine ⟨?_, ?_, ?_⟩
  · intro now s h
    have hne := auth_prefixed_ne_empty (toString now)
    simp [fetchAuthTokenSuccess, sendTokenToWebView, hne, h, drainTokenQueue]
  · intro ctx sc h
    simp [evalScript, h]
  · intro ctx sc h
    simp [evalScript, h]

/-- Witness for C10 at concrete inputs. -/
theorem unsolicited_token_push_and_guarded_invoke_witness :
    (fetchAuthTokenSuccess 5 sampleState).scripts
      = [sendResponseToWeb "resolveToken" (JsArg.prim (JsPrim.str ("auth_token_" ++ toString 5)))]
    ∧ evalScript offCtx (sendResponseToWeb "resolveToken" (JsArg.prim (JsPrim.str "t"))) = none
    ∧ evalScript onCtx (sendResponseToWeb "resolveToken" (JsArg.prim (JsPrim.str "t")))
      = some { method := "resolveToken", payload := JsArg.prim (JsPrim.str "t") } :=
  ⟨unsolicited_token_push_and_guarded_invoke.1 5 sampleState rfl,
   unsolicited_token_push_and_guarded_invoke.2.1 offCtx _ rfl,
   unsolicited_token_push_and_guarded_invoke.2.2 onCtx _ rfl⟩
